import Mathlib

/-
Verification development for the ffmpeg-filter-proxy video filter.

The repository contains three snapshots of the same filter:
  * src/vf_proxy.c            -- base variant (no mode options)
  * src/unnamed/part_000      -- clear variant (boolean option clear)
  * code inside src/README.md -- split variant (boolean option split)

The definitions below are shallow embeddings of those C functions.
FFmpeg machinery (buffer allocation, downstream forwarding,
av_image_get_buffer_size, dlopen and dlsym) is an external collaborator
and is modelled by explicit oracle parameters; everything the filter
itself computes is translated directly from the source.
-/

/-- A pixel buffer: the byte sequence behind frame data, one Nat per byte. -/
abbrev Buf := List Nat

/-- A video frame: buffer, geometry, format tag, presentation timestamp,
opaque non-pixel metadata, and the writability (exclusive-ownership) bit
that av_frame_is_writable reports. -/
structure AVFrame where
  data : Buf
  width : Nat
  height : Nat
  linesize : Nat
  format : Int
  pts : Int
  props : Nat
  writable : Bool
deriving DecidableEq

/-- A stream time base, as in AVRational. -/
structure AVRational where
  num : Int
  den : Int
deriving DecidableEq

/-- av_q2d: numerator over denominator as an exact rational
(the C computes the same expression in double precision). -/
def av_q2d (r : AVRational) : ℚ := (r.num : ℚ) / (r.den : ℚ)

/-- The timestamp expression of the dispatch code:
in->pts * av_q2d(inlink->time_base) * 1000. -/
def to_millis (pts : Int) (tb : AVRational) : ℚ :=
  (pts : ℚ) * av_q2d tb * 1000

/-- AVERROR(EINVAL). -/
def AVERROR_EINVAL : Int := -22

/-- AVERROR(ENOMEM). -/
def AVERROR_ENOMEM : Int := -12

/-- AVERROR_UNKNOWN, i.e. -FFERRTAG of UNKN. -/
def AVERROR_UNKNOWN : Int := -1313558101

/-- The dynamic library world seen through dlopen and dlsym: whether the
open succeeds, which of the three entry points resolve, and what the
module returns from filter_init. -/
structure Library where
  opens : Bool
  has_init : Bool
  has_frame : Bool
  has_uninit : Bool
  init_rc : Int
  init_ud : Nat
deriving DecidableEq

/-- The ProxyContext fields touched by init and uninit. handle keeps the
raw pointer value stored in pc->handle: the C code never clears it after
dlclose, so the field can outlive the handle it once named. -/
structure ProxyContext where
  filter_path : Option String
  config : Option String
  handle : Option Nat
  user_data : Nat
  has_init_sym : Bool
  has_frame_sym : Bool
  has_uninit_sym : Bool
deriving DecidableEq

/-- Observable events of one init call: dlopen and dlclose call counts,
dlsym requests in order, and the config value passed to filter_init
(none when filter_init was never called). -/
structure InitTrace where
  dlopen_calls : Nat
  dlclose_calls : Nat
  dlsym_names : List String
  init_called_with : Option (Option String)
deriving DecidableEq

/-- Shallow embedding of static int init(AVFilterContext*) from
src/vf_proxy.c lines 40-84 (identical in src/unnamed/part_000 lines
41-85): check filter_path, dlopen, resolve filter_init, filter_frame,
filter_uninit in that order, dlclose and fail on the first miss, then
call filter_init and dlclose on a nonzero return.  Note that the error
paths call dlclose but never clear the handle field. -/
def init (filter_path config : Option String) (lib : Library) :
    Int × ProxyContext × InitTrace :=
  let pc0 : ProxyContext :=
    { filter_path := filter_path, config := config, handle := none,
      user_data := 0, has_init_sym := false, has_frame_sym := false,
      has_uninit_sym := false }
  match filter_path with
  | none => (AVERROR_EINVAL, pc0, ⟨0, 0, [], none⟩)
  | some _ =>
    if lib.opens = false then
      (AVERROR_EINVAL, pc0, ⟨1, 0, [], none⟩)
    else
      let pc1 := { pc0 with handle := some 1 }
      if lib.has_init = false then
        (AVERROR_EINVAL, pc1, ⟨1, 1, ["filter_init"], none⟩)
      else
        let pc2 := { pc1 with has_init_sym := true }
        if lib.has_frame = false then
          (AVERROR_EINVAL, pc2, ⟨1, 1, ["filter_init", "filter_frame"], none⟩)
        else
          let pc3 := { pc2 with has_frame_sym := true }
          if lib.has_uninit = false then
            (AVERROR_EINVAL, pc3,
              ⟨1, 1, ["filter_init", "filter_frame", "filter_uninit"], none⟩)
          else
            let pc4 := { pc3 with has_uninit_sym := true,
                                  user_data := lib.init_ud }
            if lib.init_rc ≠ 0 then
              (AVERROR_EINVAL, pc4,
                ⟨1, 1, ["filter_init", "filter_frame", "filter_uninit"],
                  some config⟩)
            else
              (0, pc4,
                ⟨1, 0, ["filter_init", "filter_frame", "filter_uninit"],
                  some config⟩)

/-- Observable events of one uninit call: whether filter_uninit was
invoked and how many dlclose calls were made. -/
structure UninitTrace where
  uninit_called : Bool
  dlclose_calls : Nat
deriving DecidableEq

/-- Shallow embedding of static void uninit(AVFilterContext*) from
src/vf_proxy.c lines 86-96: if pc->handle is non-null, call
pc->filter_uninit (when that pointer is non-null) and dlclose the
handle. -/
def uninit (pc : ProxyContext) : UninitTrace :=
  if pc.handle.isSome then
    { uninit_called := pc.has_uninit_sym, dlclose_calls := 1 }
  else
    { uninit_called := false, dlclose_calls := 0 }

/-- Default of the config AVOption in proxy_options: the empty string
(src/vf_proxy.c line 191, field .str of the option table entry). -/
def config_default : Option String := some ""

/-- Default of the filter_path AVOption in proxy_options: NULL
(src/vf_proxy.c line 183). -/
def filter_path_default : Option String := none

/-- Effective value of a string AVOption: the user-supplied value when
one was set, otherwise the default from the option table. -/
def option_value (dflt user : Option String) : Option String :=
  match user with
  | some s => some s
  | none => dflt

/-- The behaviour of a loaded module seen through its buffer: given the
bytes behind the pointer it received, the module returns a status code
and the bytes it leaves in the buffer.  The scalar arguments the filter
hands over are recorded separately in the dispatch trace. -/
structure FilterModule where
  process : Buf → Int × Buf

/-- The six values src/vf_proxy.c lines 144-145 actually pass to
pc->filter_frame, in source order: out->data[0], data_size, in->width,
in->height, time_ms, pc->user_data.  The declared function pointer type
has seven parameters; the line_size argument is absent from the call. -/
structure BaseCall where
  buffer : Buf
  data_size : Int
  width : Nat
  height : Nat
  time_ms : ℚ
  user_data : Nat
deriving DecidableEq

/-- The seven values the clear variant (src/unnamed/part_000 lines
143-144) and the split variant (do_filter in the README sources) pass to
pc->filter_frame, in source order. -/
structure ModuleCall where
  buffer : Buf
  data_size : Int
  width : Nat
  height : Nat
  line_size : Nat
  time_ms : ℚ
  user_data : Nat
deriving DecidableEq

/-- One positional argument of a foreign call. -/
inductive ArgVal where
  | bufArg (b : Buf)
  | intArg (n : Int)
  | natArg (n : Nat)
  | ratArg (q : ℚ)
  | ptrArg (p : Nat)
deriving DecidableEq

/-- The argument list of the base-variant call, read off src/vf_proxy.c
lines 144-145 left to right. -/
def BaseCall.argList (c : BaseCall) : List ArgVal :=
  [.bufArg c.buffer, .intArg c.data_size, .natArg c.width, .natArg c.height,
    .ratArg c.time_ms, .ptrArg c.user_data]

/-- The argument list of the seven-argument call, read off
src/unnamed/part_000 lines 143-144 left to right. -/
def ModuleCall.argList (c : ModuleCall) : List ArgVal :=
  [.bufArg c.buffer, .intArg c.data_size, .natArg c.width, .natArg c.height,
    .natArg c.line_size, .ratArg c.time_ms, .ptrArg c.user_data]

/-- The documented ABI of the proxied filter, from src/README.md line 16:
filter_frame(data, data_size, width, height, line_size, ts_millis,
user_data). -/
def abiFilterFrame (data : Buf) (data_size : Int) (width height line_size : Nat)
    (ts_millis : ℚ) (user_data : Nat) : List ArgVal :=
  [.bufArg data, .intArg data_size, .natArg width, .natArg height,
    .natArg line_size, .ratArg ts_millis, .ptrArg user_data]

/-- AV_WN32(p, 0): write four zero bytes at offset off. -/
def wz (b : Buf) (off : Nat) : Buf :=
  ((((b.set off 0).set (off + 1) 0).set (off + 2) 0).set (off + 3) 0)

/-- The inner loop of clear_image: for j in 0..n-1 write a 32-bit zero at
i * ls + j * 4 (src/unnamed/part_000 lines 101-103). -/
def clearRowAux (ls i : Nat) (b : Buf) : Nat → Buf
  | 0 => b
  | j + 1 => wz (clearRowAux ls i b j) (i * ls + j * 4)

/-- The outer loop of clear_image: rows 0..n-1 in ascending order
(src/unnamed/part_000 lines 100-104). -/
def clearRows (ls w : Nat) (b : Buf) : Nat → Buf
  | 0 => b
  | i + 1 => clearRowAux ls i (clearRows ls w b i) w

/-- Shallow embedding of static void clear_image(AVFrame*) from
src/unnamed/part_000 lines 99-105: zero 4 bytes per pixel at
i * linesize + j * 4 for every row i and column j of the frame. -/
def clear_image (f : AVFrame) : AVFrame :=
  { f with data := clearRows f.linesize f.width f.data f.height }

/-- av_frame_copy_props: copy the non-pixel metadata (timestamp and the
opaque props blob) of src onto dst, leaving buffer and geometry alone. -/
def av_frame_copy_props (dst src : AVFrame) : AVFrame :=
  { dst with pts := src.pts, props := src.props }

/-- Observable outcome of one dispatch: the return code, every frame
handed to ff_filter_frame in call order tagged with its output pad,
every frame passed to av_frame_free, the arguments of the
av_image_get_buffer_size call when one was made, and the foreign calls
into the module. -/
structure DOut (C : Type) where
  ret : Int
  forwarded : List (Nat × AVFrame)
  freed : List AVFrame
  size_query : Option (Int × Nat × Nat)
  calls : List C
deriving DecidableEq

namespace VfProxy

/-- The tail of filter_frame in src/vf_proxy.c lines 133-156, after the
in-place-or-copy decision: compute data_size from the input frame,
bail out on a negative size (freeing nothing), call the module with the
six-argument list of line 144, free the input when a copy was made,
turn a nonzero module status into AVERROR_UNKNOWN (freeing nothing
else), otherwise forward the output frame on pad 0. -/
def run_filter (gbs : Int → Nat → Nat → Int) (m : FilterModule)
    (tb : AVRational) (ud : Nat) (fwd : Nat → Int) (direct : Bool)
    (inF out : AVFrame) : DOut BaseCall :=
  let data_size := gbs inF.format inF.width inF.height
  let sq := some (inF.format, inF.width, inF.height)
  if data_size < 0 then
    { ret := data_size, forwarded := [], freed := [], size_query := sq,
      calls := [] }
  else
    let time_ms := to_millis inF.pts tb
    let call : BaseCall :=
      { buffer := out.data, data_size := data_size, width := inF.width,
        height := inF.height, time_ms := time_ms, user_data := ud }
    let res := m.process out.data
    let out2 := { out with data := res.2 }
    let freed_in := if direct then ([] : List AVFrame) else [inF]
    if res.1 ≠ 0 then
      { ret := AVERROR_UNKNOWN, forwarded := [], freed := freed_in,
        size_query := sq, calls := [call] }
    else
      { ret := fwd 0, forwarded := [(0, out2)], freed := freed_in,
        size_query := sq, calls := [call] }

/-- Shallow embedding of static int filter_frame(AVFilterLink*, AVFrame*)
from src/vf_proxy.c lines 112-157: process in place when the input frame
is writable, otherwise allocate an output buffer (freeing the input and
returning ENOMEM when the allocation fails) and copy the frame props
onto it, then run the common tail. -/
def filter_frame (gbs : Int → Nat → Nat → Int) (m : FilterModule)
    (tb : AVRational) (ud : Nat) (fwd : Nat → Int)
    (allocOut : Option AVFrame) (inF : AVFrame) : DOut BaseCall :=
  if inF.writable then
    run_filter gbs m tb ud fwd true inF inF
  else
    match allocOut with
    | none =>
      { ret := AVERROR_ENOMEM, forwarded := [], freed := [inF],
        size_query := none, calls := [] }
    | some o =>
      run_filter gbs m tb ud fwd false inF (av_frame_copy_props o inF)

end VfProxy

namespace ClearVariant

/-- The tail of filter_frame in src/unnamed/part_000 lines 128-156:
identical to the base variant except that the destination frame is
cleared first when the clear option is set, and the call passes all
seven arguments including in->linesize[0] (lines 143-144). -/
def run_filter (clear : Bool) (gbs : Int → Nat → Nat → Int)
    (m : FilterModule) (tb : AVRational) (ud : Nat) (fwd : Nat → Int)
    (direct : Bool) (inF out : AVFrame) : DOut ModuleCall :=
  let data_size := gbs inF.format inF.width inF.height
  let sq := some (inF.format, inF.width, inF.height)
  if data_size < 0 then
    { ret := data_size, forwarded := [], freed := [], size_query := sq,
      calls := [] }
  else
    let out1 := if clear then clear_image out else out
    let time_ms := to_millis inF.pts tb
    let call : ModuleCall :=
      { buffer := out1.data, data_size := data_size, width := inF.width,
        height := inF.height, line_size := inF.linesize,
        time_ms := time_ms, user_data := ud }
    let res := m.process out1.data
    let out2 := { out1 with data := res.2 }
    let freed_in := if direct then ([] : List AVFrame) else [inF]
    if res.1 ≠ 0 then
      { ret := AVERROR_UNKNOWN, forwarded := [], freed := freed_in,
        size_query := sq, calls := [call] }
    else
      { ret := fwd 0, forwarded := [(0, out2)], freed := freed_in,
        size_query := sq, calls := [call] }

/-- Shallow embedding of static int filter_frame(AVFilterLink*, AVFrame*)
from src/unnamed/part_000 lines 107-156. -/
def filter_frame (clear : Bool) (gbs : Int → Nat → Nat → Int)
    (m : FilterModule) (tb : AVRational) (ud : Nat) (fwd : Nat → Int)
    (allocOut : Option AVFrame) (inF : AVFrame) : DOut ModuleCall :=
  if inF.writable then
    run_filter clear gbs m tb ud fwd true inF inF
  else
    match allocOut with
    | none =>
      { ret := AVERROR_ENOMEM, forwarded := [], freed := [inF],
        size_query := none, calls := [] }
    | some o =>
      run_filter clear gbs m tb ud fwd false inF (av_frame_copy_props o inF)

end ClearVariant

namespace SplitVariant

/-- Shallow embedding of static int do_filter(AVFilterLink*, AVFrame*,
AVFrame*) from the sources inside src/README.md: compute data_size from
the OUTPUT frame, fail on a negative size, call the module with the
seven-argument list built from the output frame, and map a nonzero
module status to AVERROR_UNKNOWN.  Returns the status, the output frame
as the module left it, and the calls made. -/
def do_filter (gbs : Int → Nat → Nat → Int) (m : FilterModule)
    (tb : AVRational) (ud : Nat) (inF out : AVFrame) :
    Int × AVFrame × List ModuleCall :=
  let data_size := gbs out.format out.width out.height
  if data_size < 0 then
    (data_size, out, [])
  else
    let time_ms := to_millis inF.pts tb
    let call : ModuleCall :=
      { buffer := out.data, data_size := data_size, width := out.width,
        height := out.height, line_size := out.linesize,
        time_ms := time_ms, user_data := ud }
    let res := m.process out.data
    if res.1 ≠ 0 then
      (AVERROR_UNKNOWN, { out with data := res.2 }, [call])
    else
      (0, { out with data := res.2 }, [call])

/-- Shallow embedding of static int filter_frame_split(AVFilterLink*,
AVFrame*) from the sources inside src/README.md: allocate the overlay
buffer (freeing the input and returning ENOMEM on failure), clear it,
give it the input pts, run do_filter on it; on a do_filter failure or a
failed forward of the primary frame free the overlay and propagate,
otherwise forward the untouched input frame on pad 0 and then the
filtered overlay on pad 1. -/
def filter_frame (gbs : Int → Nat → Nat → Int) (m : FilterModule)
    (tb : AVRational) (ud : Nat) (fwd : Nat → Int)
    (allocOut : Option AVFrame) (inF : AVFrame) : DOut ModuleCall :=
  match allocOut with
  | none =>
    { ret := AVERROR_ENOMEM, forwarded := [], freed := [inF],
      size_query := none, calls := [] }
  | some o =>
    let out1 := clear_image o
    let out2 := { out1 with pts := inF.pts }
    let dfr := do_filter gbs m tb ud inF out2
    let sq := some (out2.format, out2.width, out2.height)
    if dfr.1 < 0 then
      { ret := dfr.1, forwarded := [], freed := [dfr.2.1],
        size_query := sq, calls := dfr.2.2 }
    else
      if fwd 0 < 0 then
        { ret := fwd 0, forwarded := [(0, inF)], freed := [dfr.2.1],
          size_query := sq, calls := dfr.2.2 }
      else
        { ret := fwd 1, forwarded := [(0, inF), (1, dfr.2.1)], freed := [],
          size_query := sq, calls := dfr.2.2 }

end SplitVariant

/-- A module whose process_frame is the identity transform: status 0,
buffer left byte-for-byte unchanged. -/
def idModule : FilterModule := ⟨fun b => (0, b)⟩

/-- A module whose process_frame always fails with status 1, leaving the
buffer unchanged. -/
def failModule : FilterModule := ⟨fun b => (1, b)⟩

/-- A buffer-size oracle computing the BGRA packed size 4 * w * h,
ignoring the format tag. -/
def gbs4 : Int → Nat → Nat → Int := fun _ w h => ((4 * w * h : Nat) : Int)

/-- A forwarding oracle for which every downstream link accepts. -/
def fwd0 : Nat → Int := fun _ => 0

/-- Time base 1/25 used by the concrete runs. -/
def tbEx : AVRational := ⟨1, 25⟩

/-- A 1x1 BGRA frame that is exclusively owned (writable). -/
def exWritable : AVFrame := ⟨[1, 2, 3, 4], 1, 1, 4, 28, 5, 7, true⟩

/-- A 1x1 BGRA frame that is shared (not writable). -/
def exInShared : AVFrame := ⟨[1, 2, 3, 4], 1, 1, 4, 28, 5, 7, false⟩

/-- A freshly allocated 1x1 output frame whose pool buffer holds 9s. -/
def exAlloc : AVFrame := ⟨[9, 9, 9, 9], 1, 1, 4, 28, 0, 0, true⟩

/-- A freshly allocated 2x1 output frame (wider than exInShared). -/
def exAllocWide : AVFrame := ⟨[9, 9, 9, 9, 9, 9, 9, 9], 2, 1, 8, 28, 0, 0, true⟩

/-- A freshly allocated 1x1 frame with stride 8: four padding bytes per
row, pool contents 5s. -/
def exAllocPad : AVFrame := ⟨[5, 5, 5, 5, 5, 5, 5, 5], 1, 1, 8, 28, 0, 0, true⟩

/-- A writable 1x1 frame with stride 8 and a buffer full of 1s. -/
def exClearIn : AVFrame := ⟨[1, 1, 1, 1, 1, 1, 1, 1], 1, 1, 8, 28, 5, 7, true⟩

/-- A library that opens, resolves all three symbols and initializes. -/
def libOk : Library := ⟨true, true, true, true, 0, 42⟩

/-- A library that opens and resolves but whose filter_init returns 1. -/
def libInitFails : Library := ⟨true, true, true, true, 1, 42⟩

theorem set_zero_keep (b : Buf) (q p : Nat) (h : b[p]? = some 0) :
    (b.set q 0)[p]? = some 0 := by
  rw [List.getElem?_set]
  by_cases e : q = p
  · subst e
    rcases List.getElem?_eq_some.mp h with ⟨hlt, _⟩
    simp [hlt]
  · simp [e, h]

theorem wz_keep (b : Buf) (o p : Nat) (h : b[p]? = some 0) :
    (wz b o)[p]? = some 0 :=
  set_zero_keep _ _ _ (set_zero_keep _ _ _ (set_zero_keep _ _ _
    (set_zero_keep _ _ _ h)))

theorem wz_hit (b : Buf) (o k : Nat) (hk : k < 4) (hp : o + k < b.length) :
    (wz b o)[o + k]? = some 0 := by
  unfold wz
  interval_cases k
  · apply set_zero_keep
    apply set_zero_keep
    apply set_zero_keep
    simpa using List.getElem?_set_eq_of_lt (0 : Nat) (l := b) (by omega)
  · apply set_zero_keep
    apply set_zero_keep
    exact List.getElem?_set_eq_of_lt (0 : Nat) (by simpa using hp)
  · apply set_zero_keep
    exact List.getElem?_set_eq_of_lt (0 : Nat) (by simpa using hp)
  · exact List.getElem?_set_eq_of_lt (0 : Nat) (by simpa using hp)

theorem clearRowAux_keep (ls i : Nat) (b : Buf) (n p : Nat)
    (h : b[p]? = some 0) : (clearRowAux ls i b n)[p]? = some 0 := by
  induction n with
  | zero => exact h
  | succ m ih => exact wz_keep _ _ _ ih

theorem clearRowAux_length (ls i : Nat) (b : Buf) (n : Nat) :
    (clearRowAux ls i b n).length = b.length := by
  induction n with
  | zero => rfl
  | succ m ih => simp [clearRowAux, wz, ih]

theorem clearRowAux_hit (ls i : Nat) (b : Buf) (n j k : Nat) (hj : j < n)
    (hk : k < 4) (hp : i * ls + j * 4 + k < b.length) :
    (clearRowAux ls i b n)[i * ls + j * 4 + k]? = some 0 := by
  induction n with
  | zero => omega
  | succ m ih =>
    by_cases hjm : j < m
    · exact wz_keep _ _ _ (ih hjm)
    · have hje : j = m := by omega
      subst hje
      exact wz_hit _ _ _ hk (by rw [clearRowAux_length]; omega)

theorem clearRows_length (ls w : Nat) (b : Buf) (n : Nat) :
    (clearRows ls w b n).length = b.length := by
  induction n with
  | zero => rfl
  | succ m ih => simp [clearRows, clearRowAux_length, ih]

theorem clearRows_hit (ls w : Nat) (b : Buf) (n i j k : Nat) (hi : i < n)
    (hj : j < w) (hk : k < 4) (hp : i * ls + j * 4 + k < b.length) :
    (clearRows ls w b n)[i * ls + j * 4 + k]? = some 0 := by
  induction n with
  | zero => omega
  | succ m ih =>
    by_cases him : i < m
    · exact clearRowAux_keep _ _ _ _ _ (ih him)
    · have hie : i = m := by omega
      subst hie
      exact clearRowAux_hit _ _ _ _ _ _ hj hk (by rw [clearRows_length]; omega)

/-- Every byte of every pixel row (4 bytes per pixel, width pixels per
row, at the frame stride) is zero after clear_image. -/
theorem clear_image_zero (f : AVFrame) (i j k : Nat) (hi : i < f.height)
    (hj : j < f.width) (hk : k < 4)
    (hp : i * f.linesize + j * 4 + k < f.data.length) :
    (clear_image f).data[i * f.linesize + j * 4 + k]? = some 0 :=
  clearRows_hit _ _ _ _ _ _ _ hi hj hk hp

/-- C1: on a dispatch whose process_frame returns nonzero, no frame is
forwarded, but the claim that every buffer allocated for the dispatch is
released fails: with a shared input frame the base variant frees only
the input while the allocated output buffer is never freed, and the
split variant frees only the overlay while the input frame is never
freed. -/
theorem c1_error_path_leak :
    (let r := VfProxy.filter_frame gbs4 failModule tbEx 3 fwd0 (some exAlloc)
        exInShared
     r.ret = AVERROR_UNKNOWN ∧ r.forwarded = [] ∧ r.freed = [exInShared] ∧
       av_frame_copy_props exAlloc exInShared ∉ r.freed) ∧
    (let rs := SplitVariant.filter_frame gbs4 failModule tbEx 3 fwd0
        (some exAllocPad) exInShared
     rs.ret = AVERROR_UNKNOWN ∧ rs.forwarded = [] ∧ rs.freed.length = 1 ∧
       exInShared ∉ rs.freed) := by
  decide

/-- C2: after filter_init returns nonzero the handle is dlclosed but the
handle field is not cleared, so a subsequent teardown is not a no-op: it
invokes filter_uninit and calls dlclose a second time, contradicting the
claim. -/
theorem c2_teardown_after_failed_init_not_noop :
    (init (some "mod.so") (some "") libInitFails).1 = AVERROR_EINVAL ∧
    (init (some "mod.so") (some "") libInitFails).2.2.dlclose_calls = 1 ∧
    (uninit (init (some "mod.so") (some "") libInitFails).2.1).uninit_called
      = true ∧
    (uninit (init (some "mod.so") (some "") libInitFails).2.1).dlclose_calls
      = 1 := by
  decide

theorem clear_image_data_length (f : AVFrame) :
    (clear_image f).data.length = f.data.length :=
  clearRows_length _ _ _ _

@[simp] theorem clear_image_width (f : AVFrame) :
    (clear_image f).width = f.width := rfl

@[simp] theorem clear_image_height (f : AVFrame) :
    (clear_image f).height = f.height := rfl

@[simp] theorem clear_image_linesize (f : AVFrame) :
    (clear_image f).linesize = f.linesize := rfl

@[simp] theorem clear_image_format (f : AVFrame) :
    (clear_image f).format = f.format := rfl

@[simp] theorem clear_image_pts (f : AVFrame) :
    (clear_image f).pts = f.pts := rfl

@[simp] theorem clear_image_props (f : AVFrame) :
    (clear_image f).props = f.props := rfl

@[simp] theorem clear_image_writable (f : AVFrame) :
    (clear_image f).writable = f.writable := rfl

/-- C3 counterexample: in clear mode with a 1x1 frame of stride 8 whose
buffer holds 1s, the buffer handed to the module is [0,0,0,0,1,1,1,1]:
the padding bytes of the row are not zero, so it is false that every
byte of the destination buffer equals 0 immediately before the module is
invoked. -/
theorem c3_padding_byte_not_cleared :
    ((ClearVariant.filter_frame true gbs4 idModule tbEx 3 fwd0 none
        exClearIn).calls.map ModuleCall.buffer = [[0, 0, 0, 0, 1, 1, 1, 1]]) ∧
    ¬ (∀ c ∈ (ClearVariant.filter_frame true gbs4 idModule tbEx 3 fwd0 none
          exClearIn).calls,
        ∀ p, p < c.buffer.length → c.buffer[p]? = some 0) := by
  decide

/-- C3 amended: in clear mode, immediately before the module is invoked,
every byte of the first width*4 bytes of each pixel row of the
destination buffer (the input frame in place, or the allocated output
frame) equals 0; padding bytes between width*4 and the stride are left
untouched by clear_image. -/
theorem c3_pixel_rows_zero :
    (∀ (gbs : Int → Nat → Nat → Int) (m : FilterModule) (tb : AVRational)
        (ud : Nat) (fwd : Nat → Int) (inF : AVFrame), inF.writable = true →
      ∀ c ∈ (ClearVariant.filter_frame true gbs m tb ud fwd none inF).calls,
        ∀ i j k : Nat, i < inF.height → j < inF.width → k < 4 →
          i * inF.linesize + j * 4 + k < c.buffer.length →
          c.buffer[i * inF.linesize + j * 4 + k]? = some 0) ∧
    (∀ (gbs : Int → Nat → Nat → Int) (m : FilterModule) (tb : AVRational)
        (ud : Nat) (fwd : Nat → Int) (inF o : AVFrame), inF.writable = false →
      ∀ c ∈ (ClearVariant.filter_frame true gbs m tb ud fwd (some o) inF).calls,
        ∀ i j k : Nat, i < o.height → j < o.width → k < 4 →
          i * o.linesize + j * 4 + k < c.buffer.length →
          c.buffer[i * o.linesize + j * 4 + k]? = some 0) := by
  constructor
  · intro gbs m tb ud fwd inF hw c hc i j k hi hj hk hp
    by_cases hds : gbs inF.format inF.width inF.height < 0
    · simp [ClearVariant.filter_frame, ClearVariant.run_filter, hw, hds] at hc
    · simp [ClearVariant.filter_frame, ClearVariant.run_filter, hw, hds,
        apply_ite DOut.calls] at hc
      subst hc
      dsimp only at hp ⊢
      have hlen : i * inF.linesize + j * 4 + k < inF.data.length := by
        have := clear_image_data_length inF
        omega
      exact clear_image_zero inF i j k hi hj hk hlen
  · intro gbs m tb ud fwd inF o hw c hc i j k hi hj hk hp
    by_cases hds : gbs inF.format inF.width inF.height < 0
    · simp [ClearVariant.filter_frame, ClearVariant.run_filter, hw, hds] at hc
    · simp [ClearVariant.filter_frame, ClearVariant.run_filter, hw, hds,
        apply_ite DOut.calls] at hc
      subst hc
      dsimp only at hp ⊢
      have hlen : i * o.linesize + j * 4 + k
          < (av_frame_copy_props o inF).data.length := by
        have := clear_image_data_length (av_frame_copy_props o inF)
        omega
      exact clear_image_zero (av_frame_copy_props o inF) i j k hi hj hk hlen

/-- C3 witness: the amended row-zeroing property instantiated on a
concrete writable stride-8 frame. -/
theorem c3_pixel_rows_zero_witness :
    exClearIn.writable = true ∧
    (∀ c ∈ (ClearVariant.filter_frame true gbs4 idModule tbEx 3 fwd0 none
        exClearIn).calls,
      ∀ i j k : Nat, i < exClearIn.height → j < exClearIn.width → k < 4 →
        i * exClearIn.linesize + j * 4 + k < c.buffer.length →
        c.buffer[i * exClearIn.linesize + j * 4 + k]? = some 0) :=
  ⟨rfl, c3_pixel_rows_zero.1 gbs4 idModule tbEx 3 fwd0 exClearIn rfl⟩

/-- C4 counterexample: a successful split dispatch emits the two frames
in order, but with a stride-8 overlay whose pool buffer held 5s the
buffer passed to the module is [0,0,0,0,5,5,5,5]: the overlay was not
fully zeroed before the module was invoked, refuting the claim as
stated. -/
theorem c4_overlay_not_fully_zeroed :
    ((SplitVariant.filter_frame gbs4 idModule tbEx 3 fwd0 (some exAllocPad)
        exInShared).forwarded.map Prod.fst = [0, 1]) ∧
    ((SplitVariant.filter_frame gbs4 idModule tbEx 3 fwd0 (some exAllocPad)
        exInShared).calls.map ModuleCall.buffer = [[0, 0, 0, 0, 5, 5, 5, 5]]) ∧
    ¬ (∀ c ∈ (SplitVariant.filter_frame gbs4 idModule tbEx 3 fwd0
          (some exAllocPad) exInShared).calls,
        ∀ p, p < c.buffer.length → c.buffer[p]? = some 0) := by
  decide

/-- C4 amended: in split mode, when the overlay allocation succeeds, the
module accepts the frame and the primary forward succeeds, exactly two
frames are emitted in order: the untouched input frame on pad 0 first,
then the filtered overlay on pad 1 carrying the input pts; the overlay
is the only buffer passed to the module, and at module-invocation time
every byte of the first width*4 bytes of each of its pixel rows is zero
(padding bytes beyond the pixel rows are not cleared). -/
theorem c4_split_emission (gbs : Int → Nat → Nat → Int) (m : FilterModule)
    (tb : AVRational) (ud : Nat) (fwd : Nat → Int) (inF o : AVFrame)
    (hsz : ¬ gbs o.format o.width o.height < 0)
    (hrc : (m.process (clear_image o).data).1 = 0)
    (hf0 : ¬ fwd 0 < 0) :
    (SplitVariant.filter_frame gbs m tb ud fwd (some o) inF).forwarded
      = [(0, inF),
         (1, { (clear_image o) with
                pts := inF.pts,
                data := (m.process (clear_image o).data).2 })] ∧
    (SplitVariant.filter_frame gbs m tb ud fwd (some o) inF).calls.length
      = 1 ∧
    (∀ c ∈ (SplitVariant.filter_frame gbs m tb ud fwd (some o) inF).calls,
      c.buffer = (clear_image o).data ∧
      ∀ i j k : Nat, i < o.height → j < o.width → k < 4 →
        i * o.linesize + j * 4 + k < c.buffer.length →
        c.buffer[i * o.linesize + j * 4 + k]? = some 0) := by
  refine ⟨?_, ?_, ?_⟩
  · simp [SplitVariant.filter_frame, SplitVariant.do_filter, hsz, hrc, hf0]
  · simp [SplitVariant.filter_frame, SplitVariant.do_filter, hsz, hrc, hf0]
  · intro c hc
    simp [SplitVariant.filter_frame, SplitVariant.do_filter, hsz, hrc, hf0]
      at hc
    subst hc
    refine ⟨rfl, ?_⟩
    intro i j k hi hj hk hp
    dsimp only at hp ⊢
    have hlen : i * o.linesize + j * 4 + k < o.data.length := by
      have := clear_image_data_length o
      omega
    exact clear_image_zero o i j k hi hj hk hlen

/-- C4 witness: the amended split-emission property instantiated on a
concrete input frame and a concrete stride-8 overlay allocation with the
identity module. -/
theorem c4_split_emission_witness :
    (SplitVariant.filter_frame gbs4 idModule tbEx 3 fwd0 (some exAllocPad)
        exInShared).forwarded
      = [(0, exInShared),
         (1, { (clear_image exAllocPad) with
                pts := exInShared.pts,
                data := (idModule.process (clear_image exAllocPad).data).2 })] ∧
    (SplitVariant.filter_frame gbs4 idModule tbEx 3 fwd0 (some exAllocPad)
        exInShared).calls.length = 1 ∧
    (∀ c ∈ (SplitVariant.filter_frame gbs4 idModule tbEx 3 fwd0
        (some exAllocPad) exInShared).calls,
      c.buffer = (clear_image exAllocPad).data ∧
      ∀ i j k : Nat, i < exAllocPad.height → j < exAllocPad.width → k < 4 →
        i * exAllocPad.linesize + j * 4 + k < c.buffer.length →
        c.buffer[i * exAllocPad.linesize + j * 4 + k]? = some 0) :=
  c4_split_emission gbs4 idModule tbEx 3 fwd0 exInShared exAllocPad
    (by decide) (by decide) (by decide)

/-- C5 counterexample: with a shared 1x1 input frame and an allocated
2x1 output frame, the base variant queries the buffer size with the
INPUT frame values (format 28, width 1, height 1) and passes size 4 to
the module, not the output-frame-based some (28, 2, 1) and size 8 the
claim requires. -/
theorem c5_size_from_input_not_output :
    ((VfProxy.filter_frame gbs4 idModule tbEx 3 fwd0 (some exAllocWide)
        exInShared).size_query = some (28, 1, 1)) ∧
    (av_frame_copy_props exAllocWide exInShared).format = 28 ∧
    (av_frame_copy_props exAllocWide exInShared).width = 2 ∧
    (av_frame_copy_props exAllocWide exInShared).height = 1 ∧
    ((VfProxy.filter_frame gbs4 idModule tbEx 3 fwd0 (some exAllocWide)
        exInShared).calls.map BaseCall.data_size = [4]) ∧
    gbs4 28 2 1 = 8 ∧
    some ((28 : Int), (1 : Nat), (1 : Nat))
      ≠ some ((28 : Int), (2 : Nat), (1 : Nat)) := by
  decide

/-- C5 amended: the base and clear variants compute the module buffer
size from the input frame format, width and height (equal to the
output values whenever input and negotiated output agree), while the
split variant computes it from the output frame; in every variant a
negative computed size aborts the dispatch, returning it as the error,
before the module is invoked. -/
theorem c5_size_query_source :
    (∀ (gbs : Int → Nat → Nat → Int) (m : FilterModule) (tb : AVRational)
        (ud : Nat) (fwd : Nat → Int) (alloc : Option AVFrame) (inF : AVFrame),
      inF.writable = true ∨ alloc.isSome = true →
      (VfProxy.filter_frame gbs m tb ud fwd alloc inF).size_query
        = some (inF.format, inF.width, inF.height) ∧
      (gbs inF.format inF.width inF.height < 0 →
        (VfProxy.filter_frame gbs m tb ud fwd alloc inF).calls = [] ∧
        (VfProxy.filter_frame gbs m tb ud fwd alloc inF).ret
          = gbs inF.format inF.width inF.height)) ∧
    (∀ (clear : Bool) (gbs : Int → Nat → Nat → Int) (m : FilterModule)
        (tb : AVRational) (ud : Nat) (fwd : Nat → Int) (alloc : Option AVFrame)
        (inF : AVFrame),
      inF.writable = true ∨ alloc.isSome = true →
      (ClearVariant.filter_frame clear gbs m tb ud fwd alloc inF).size_query
        = some (inF.format, inF.width, inF.height) ∧
      (gbs inF.format inF.width inF.height < 0 →
        (ClearVariant.filter_frame clear gbs m tb ud fwd alloc inF).calls
          = [] ∧
        (ClearVariant.filter_frame clear gbs m tb ud fwd alloc inF).ret
          = gbs inF.format inF.width inF.height)) ∧
    (∀ (gbs : Int → Nat → Nat → Int) (m : FilterModule) (tb : AVRational)
        (ud : Nat) (fwd : Nat → Int) (o inF : AVFrame),
      (SplitVariant.filter_frame gbs m tb ud fwd (some o) inF).size_query
        = some (o.format, o.width, o.height) ∧
      (gbs o.format o.width o.height < 0 →
        (SplitVariant.filter_frame gbs m tb ud fwd (some o) inF).calls = [] ∧
        (SplitVariant.filter_frame gbs m tb ud fwd (some o) inF).ret
          = gbs o.format o.width o.height)) := by
  refine ⟨?_, ?_, ?_⟩
  · intro gbs m tb ud fwd alloc inF hcase
    by_cases hw : inF.writable = true
    · by_cases hds : gbs inF.format inF.width inF.height < 0 <;>
        simp [VfProxy.filter_frame, VfProxy.run_filter, hw, hds,
          apply_ite DOut.size_query, apply_ite DOut.calls, apply_ite DOut.ret]
    · have ha : alloc.isSome = true := hcase.resolve_left hw
      rcases Option.isSome_iff_exists.mp ha with ⟨o, rfl⟩
      by_cases hds : gbs inF.format inF.width inF.height < 0 <;>
        simp [VfProxy.filter_frame, VfProxy.run_filter, hw, hds,
          apply_ite DOut.size_query, apply_ite DOut.calls, apply_ite DOut.ret]
  · intro clear gbs m tb ud fwd alloc inF hcase
    by_cases hw : inF.writable = true
    · by_cases hds : gbs inF.format inF.width inF.height < 0 <;>
        simp [ClearVariant.filter_frame, ClearVariant.run_filter, hw, hds,
          apply_ite DOut.size_query, apply_ite DOut.calls, apply_ite DOut.ret]
    · have ha : alloc.isSome = true := hcase.resolve_left hw
      rcases Option.isSome_iff_exists.mp ha with ⟨o, rfl⟩
      by_cases hds : gbs inF.format inF.width inF.height < 0 <;>
        simp [ClearVariant.filter_frame, ClearVariant.run_filter, hw, hds,
          apply_ite DOut.size_query, apply_ite DOut.calls, apply_ite DOut.ret]
  · intro gbs m tb ud fwd o inF
    by_cases hds : gbs o.format o.width o.height < 0 <;>
      simp [SplitVariant.filter_frame, SplitVariant.do_filter, hds,
        apply_ite DOut.size_query, apply_ite DOut.calls, apply_ite DOut.ret]

/-- C5 witness: the amended size-query property instantiated on a
concrete writable frame in the base variant. -/
theorem c5_size_query_source_witness :
    (exWritable.writable = true ∨ (none : Option AVFrame).isSome = true) ∧
    ((VfProxy.filter_frame gbs4 idModule tbEx 3 fwd0 none exWritable).size_query
      = some (exWritable.format, exWritable.width, exWritable.height) ∧
     (gbs4 exWritable.format exWritable.width exWritable.height < 0 →
       (VfProxy.filter_frame gbs4 idModule tbEx 3 fwd0 none exWritable).calls
         = [] ∧
       (VfProxy.filter_frame gbs4 idModule tbEx 3 fwd0 none exWritable).ret
         = gbs4 exWritable.format exWritable.width exWritable.height)) :=
  ⟨Or.inl rfl,
    c5_size_query_source.1 gbs4 idModule tbEx 3 fwd0 none exWritable
      (Or.inl rfl)⟩

/-- C6: the base variant invokes the module with six arguments, omitting
line_size: on a concrete dispatch the recorded argument list has six
entries and differs from the documented seven-entry ABI list built from
the same frame (with its stride 4), while the clear variant passes
exactly the documented ABI argument list. -/
theorem c6_base_call_missing_line_size :
    ((VfProxy.filter_frame gbs4 idModule tbEx 3 fwd0 none exWritable).calls.map
        BaseCall.argList
      = [[ArgVal.bufArg [1, 2, 3, 4], ArgVal.intArg 4, ArgVal.natArg 1,
          ArgVal.natArg 1, ArgVal.ratArg 200, ArgVal.ptrArg 3]]) ∧
    ([ArgVal.bufArg [1, 2, 3, 4], ArgVal.intArg 4, ArgVal.natArg 1,
      ArgVal.natArg 1, ArgVal.ratArg 200, ArgVal.ptrArg 3] : List ArgVal).length
      = 6 ∧
    (abiFilterFrame [1, 2, 3, 4] 4 1 1 4 200 3).length = 7 ∧
    ([ArgVal.bufArg [1, 2, 3, 4], ArgVal.intArg 4, ArgVal.natArg 1,
      ArgVal.natArg 1, ArgVal.ratArg 200, ArgVal.ptrArg 3] : List ArgVal)
      ≠ abiFilterFrame [1, 2, 3, 4] 4 1 1 4 200 3 ∧
    ((ClearVariant.filter_frame false gbs4 idModule tbEx 3 fwd0 none
        exWritable).calls.map ModuleCall.argList
      = [abiFilterFrame [1, 2, 3, 4] 4 1 1 4 200 3]) := by
  have ht : to_millis 5 tbEx = 200 := by
    norm_num [to_millis, av_q2d, tbEx]
  refine ⟨?_, by decide, by decide, by decide, ?_⟩
  · simp [VfProxy.filter_frame, VfProxy.run_filter, BaseCall.argList,
      exWritable, gbs4, idModule, fwd0, ht]
  · simp [ClearVariant.filter_frame, ClearVariant.run_filter,
      ModuleCall.argList, abiFilterFrame, exWritable, gbs4, idModule, fwd0, ht]

/-- C7: for every load attempt that opens the module, the three entry
points are resolved in the order filter_init, filter_frame,
filter_uninit; the loader fails on the first one missing and dlcloses
the handle before returning; on success all three symbols are resolved
and no dlclose was made, and on any error exactly one dlclose was
made. -/
theorem c7_loader_resolution (path : String) (config : Option String)
    (lib : Library) (hopen : lib.opens = true) :
    (lib.has_init = false →
      (init (some path) config lib).1 = AVERROR_EINVAL ∧
      (init (some path) config lib).2.2.dlsym_names = ["filter_init"] ∧
      (init (some path) config lib).2.2.dlclose_calls = 1) ∧
    (lib.has_init = true → lib.has_frame = false →
      (init (some path) config lib).1 = AVERROR_EINVAL ∧
      (init (some path) config lib).2.2.dlsym_names
        = ["filter_init", "filter_frame"] ∧
      (init (some path) config lib).2.2.dlclose_calls = 1) ∧
    (lib.has_init = true → lib.has_frame = true → lib.has_uninit = false →
      (init (some path) config lib).1 = AVERROR_EINVAL ∧
      (init (some path) config lib).2.2.dlsym_names
        = ["filter_init", "filter_frame", "filter_uninit"] ∧
      (init (some path) config lib).2.2.dlclose_calls = 1) ∧
    ((init (some path) config lib).1 = 0 →
      (init (some path) config lib).2.1.has_init_sym = true ∧
      (init (some path) config lib).2.1.has_frame_sym = true ∧
      (init (some path) config lib).2.1.has_uninit_sym = true ∧
      (init (some path) config lib).2.1.handle = some 1 ∧
      (init (some path) config lib).2.2.dlclose_calls = 0) ∧
    ((init (some path) config lib).1 ≠ 0 →
      (init (some path) config lib).2.2.dlclose_calls = 1) := by
  by_cases hi : lib.has_init = true
  · by_cases hf : lib.has_frame = true
    · by_cases hu : lib.has_uninit = true
      · by_cases hrc : lib.init_rc = 0
        · simp [init, hopen, hi, hf, hu, hrc, AVERROR_EINVAL]
        · simp [init, hopen, hi, hf, hu, hrc, AVERROR_EINVAL]
      · simp [init, hopen, hi, hf, hu, AVERROR_EINVAL]
    · simp [init, hopen, hi, hf, AVERROR_EINVAL]
  · simp [init, hopen, hi, AVERROR_EINVAL]

/-- C7 witness: the loader contract instantiated on a concrete library
that opens, resolves all three symbols and initializes. -/
theorem c7_loader_resolution_witness :
    libOk.opens = true ∧
    ((libOk.has_init = false →
      (init (some "m.so") none libOk).1 = AVERROR_EINVAL ∧
      (init (some "m.so") none libOk).2.2.dlsym_names = ["filter_init"] ∧
      (init (some "m.so") none libOk).2.2.dlclose_calls = 1) ∧
    (libOk.has_init = true → libOk.has_frame = false →
      (init (some "m.so") none libOk).1 = AVERROR_EINVAL ∧
      (init (some "m.so") none libOk).2.2.dlsym_names
        = ["filter_init", "filter_frame"] ∧
      (init (some "m.so") none libOk).2.2.dlclose_calls = 1) ∧
    (libOk.has_init = true → libOk.has_frame = true →
        libOk.has_uninit = false →
      (init (some "m.so") none libOk).1 = AVERROR_EINVAL ∧
      (init (some "m.so") none libOk).2.2.dlsym_names
        = ["filter_init", "filter_frame", "filter_uninit"] ∧
      (init (some "m.so") none libOk).2.2.dlclose_calls = 1) ∧
    ((init (some "m.so") none libOk).1 = 0 →
      (init (some "m.so") none libOk).2.1.has_init_sym = true ∧
      (init (some "m.so") none libOk).2.1.has_frame_sym = true ∧
      (init (some "m.so") none libOk).2.1.has_uninit_sym = true ∧
      (init (some "m.so") none libOk).2.1.handle = some 1 ∧
      (init (some "m.so") none libOk).2.2.dlclose_calls = 0) ∧
    ((init (some "m.so") none libOk).1 ≠ 0 →
      (init (some "m.so") none libOk).2.2.dlclose_calls = 1)) :=
  ⟨rfl, c7_loader_resolution "m.so" none libOk rfl⟩

/-- C8 counterexample: with the identity module and a shared input frame
holding [1,2,3,4], the base variant forwards the freshly allocated
buffer contents [9,9,9,9]: only the frame props were copied, so the
forwarded buffer is not byte-identical to the input buffer and the
round-trip claim fails for shared frames. -/
theorem c8_shared_frame_not_identity :
    ((VfProxy.filter_frame gbs4 idModule tbEx 3 fwd0 (some exAlloc)
        exInShared).forwarded.map (fun p => p.2.data) = [[9, 9, 9, 9]]) ∧
    exInShared.data = [1, 2, 3, 4] ∧
    ([[9, 9, 9, 9]] : List Buf) ≠ [exInShared.data] := by
  decide

/-- C8 amended: with the identity module, a base-variant dispatch on an
exclusively owned (writable) frame forwards exactly one frame whose
buffer is byte-identical to the input buffer; for shared frames only
the non-pixel props are copied onto the new buffer, so no such identity
holds there. -/
theorem c8_inplace_roundtrip (gbs : Int → Nat → Nat → Int) (tb : AVRational)
    (ud : Nat) (fwd : Nat → Int) (alloc : Option AVFrame) (inF : AVFrame)
    (hw : inF.writable = true)
    (hsz : ¬ gbs inF.format inF.width inF.height < 0) :
    (VfProxy.filter_frame gbs idModule tb ud fwd alloc inF).forwarded.map
        (fun p => p.2.data) = [inF.data] := by
  simp [VfProxy.filter_frame, VfProxy.run_filter, hw, hsz, idModule]

/-- C8 witness: the amended in-place round-trip instantiated on a
concrete writable frame. -/
theorem c8_inplace_roundtrip_witness :
    exWritable.writable = true ∧
    (VfProxy.filter_frame gbs4 idModule tbEx 3 fwd0 none
        exWritable).forwarded.map (fun p => p.2.data) = [exWritable.data] :=
  ⟨rfl, c8_inplace_roundtrip gbs4 tbEx 3 fwd0 none exWritable rfl (by decide)⟩

/-- C9: the timestamp conversion equals pts * (num/den) * 1000 as an
exact rational (the pure, stateless model of the double arithmetic in
the C), and every module call of a base-variant dispatch carries exactly
this converted timestamp. -/
theorem c9_timestamp_conversion (pts : Int) (tb : AVRational)
    (gbs : Int → Nat → Nat → Int) (m : FilterModule) (ud : Nat)
    (fwd : Nat → Int) (inF : AVFrame) (hw : inF.writable = true) :
    to_millis pts tb = (pts : ℚ) * ((tb.num : ℚ) / (tb.den : ℚ)) * 1000 ∧
    ∀ c ∈ (VfProxy.filter_frame gbs m tb ud fwd none inF).calls,
      c.time_ms = to_millis inF.pts tb := by
  refine ⟨rfl, ?_⟩
  intro c hc
  by_cases hds : gbs inF.format inF.width inF.height < 0
  · simp [VfProxy.filter_frame, VfProxy.run_filter, hw, hds] at hc
  · simp [VfProxy.filter_frame, VfProxy.run_filter, hw, hds,
      apply_ite DOut.calls] at hc
    subst hc
    rfl

/-- C9 witness: the timestamp property instantiated at pts 5 and time
base 1/25 on a concrete writable frame. -/
theorem c9_timestamp_conversion_witness :
    exWritable.writable = true ∧
    (to_millis 5 tbEx = (5 : ℚ) * ((tbEx.num : ℚ) / (tbEx.den : ℚ)) * 1000 ∧
     ∀ c ∈ (VfProxy.filter_frame gbs4 idModule tbEx 3 fwd0 none
         exWritable).calls,
       c.time_ms = to_millis exWritable.pts tbEx) :=
  ⟨rfl, c9_timestamp_conversion 5 tbEx gbs4 idModule 3 fwd0 exWritable rfl⟩

/-- C10: the config AVOption defaults to the empty string, so the
effective config value is never absent, and whenever filter_init is
reached it receives exactly that non-null value. -/
theorem c10_config_never_null (user : Option String) (path : String)
    (lib : Library) (hopen : lib.opens = true) (hi : lib.has_init = true)
    (hf : lib.has_frame = true) (hu : lib.has_uninit = true) :
    (option_value config_default user).isSome = true ∧
    (init (some path) (option_value config_default user)
        lib).2.2.init_called_with
      = some (option_value config_default user) := by
  constructor
  · cases user <;> rfl
  · by_cases hrc : lib.init_rc = 0 <;>
      simp [init, hopen, hi, hf, hu, hrc]

/-- C10 witness: the non-null-config property instantiated with no user
setting on a concrete successfully initializing library. -/
theorem c10_config_never_null_witness :
    (option_value config_default none).isSome = true ∧
    (init (some "m.so") (option_value config_default none)
        libOk).2.2.init_called_with
      = some (option_value config_default none) :=
  c10_config_never_null none "m.so" libOk rfl rfl rfl rfl
